import Mathlib

/-!
Verification of the `lec-core` alerting pipeline (`@lec/alert`):
the `AlertManager` dispatcher (`alert-manager.ts`) and the
`FailureDetector` sliding-window failure counter (`failure-detector.ts`).

Times are modelled as integer milliseconds (JS `Date.getTime()` values).
The outbound transport (`NodemailerClient.send`) is modelled as a function
from attempt index to the outcome of that attempt; the template renderer
(`@react-email/render`) as a function from the alert batch to either a
rendered body or a thrown error message.  Dispatch functions return a
trace recording, besides the `Result`, how many transport send calls were
made, which sleep durations were requested, and the sizes of the alert
batches handed to the renderer.
-/

namespace LecAlert

/-- Modelled from the spec: the alert category enumeration (`AlertType` in the
types module, which is not among the inspected sources; spec section 3 lists
the categories). -/
inductive AlertType where
  | JOB_FAILURE
  | REPEATED_FAILURES
  | RATE_LIMIT
  | WORKER_DOWN
  deriving DecidableEq, Repr

/-- Modelled from the spec: the alert severity enumeration (`AlertSeverity` in
the types module, not among the inspected sources; ordered LOW < MEDIUM <
HIGH < CRITICAL). -/
inductive AlertSeverity where
  | LOW
  | MEDIUM
  | HIGH
  | CRITICAL
  deriving DecidableEq, Repr

/-- The context attached to a REPEATED_FAILURES alert by
`FailureDetector.trackJobFailure` (failure-detector.ts, lines 84-89). -/
structure AlertContext where
  failureCount : Nat
  timeWindowMinutes : Nat
  jobId : String
  error : String
  deriving DecidableEq, Repr

/-- Modelled from the spec: the Alert value object (`Alert` in the types
module, not among the inspected sources; spec section 3).  `context` is the
open map, of which only the fields built by the failure detector are
modelled. -/
structure Alert where
  type : AlertType
  severity : AlertSeverity
  workerName : String
  timestamp : Int
  context : Option AlertContext
  message : String
  deriving DecidableEq, Repr

/-- The structured transport error (`SendEmailResult.error` in
nodemailer.ts). -/
structure TransportError where
  message : String
  statusCode : Option Int
  deriving DecidableEq, Repr

/-- Outcome of one `mailer.send` attempt: a resolved result carrying either
`data.id` or a structured error, or a thrown exception (the `catch` path of
`sendWithRetry`). -/
inductive SendOutcome where
  | ok (id : String)
  | err (e : TransportError)
  | exn (msg : String)
  deriving DecidableEq, Repr

/-- Modelled from the spec: the typed failure (`AlertError` in the types
module, not among the inspected sources).  Only the fields the dispatcher
fills that the spec talks about are modelled: the message and the attempt
count carried in the error context. -/
structure AlertErr where
  message : String
  attempts : Option Int
  deriving DecidableEq, Repr

/-- Success value of a send (`EmailSent` in alert-manager.ts; the wall-clock
completion timestamp is not modelled). -/
structure EmailSent where
  id : String
  deriving DecidableEq, Repr

/-- `str.includes(pat)` on JavaScript strings: `pat` occurs as a substring. -/
def containsSub (s pat : String) : Bool :=
  (s.splitOn pat).length != 1

/-- `AlertManager.isTransientError` (alert-manager.ts, lines 559-573):
status code 429 or 503, or a message containing "timeout", "network" or
"econnrefused" (case-insensitively). -/
def isTransientError (e : TransportError) : Bool :=
  if e.statusCode = some 429 ∨ e.statusCode = some 503 then
    true
  else
    let msg := e.message.toLower
    containsSub msg "timeout" || containsSub msg "network" ||
      containsSub msg "econnrefused"

/-- The spec's classification rule, written from the spec's words (section
4.3): transient exactly when the status corresponds to rate-limiting (429)
or service-unavailable (503), or the message indicates timeout, network
failure, or connection refusal. -/
def transientSpec (e : TransportError) : Bool :=
  decide (e.statusCode = some 429) || decide (e.statusCode = some 503) ||
    containsSub e.message.toLower "timeout" ||
    containsSub e.message.toLower "network" ||
    containsSub e.message.toLower "econnrefused"

/-- Retry configuration (`AlertManagerConfig.retry`, made required as in
`retryConfig`).  `maxAttempts` is a JS number, kept as an integer. -/
structure RetryConfig where
  maxAttempts : Int
  delays : List Nat
  deriving DecidableEq, Repr

/-- `DEFAULT_RETRY_CONFIG` (alert-manager.ts, lines 50-53). -/
def DEFAULT_RETRY_CONFIG : RetryConfig :=
  { maxAttempts := 3, delays := [1000, 2000, 4000] }

/-- Alert thresholds configuration (`ALERT_THRESHOLDS` /
`AlertManagerConfig.thresholds`). -/
structure ThresholdsConfig where
  failuresInWindow : Nat
  timeWindowMinutes : Nat
  deriving DecidableEq, Repr

/-- `DEFAULT_THRESHOLDS` (alert-manager.ts, lines 58-61). -/
def DEFAULT_THRESHOLDS : ThresholdsConfig :=
  { failuresInWindow := 5, timeWindowMinutes := 10 }

/-- `DEFAULT_DEBOUNCE_WINDOW_MS` (alert-manager.ts, line 66): 5 minutes. -/
def DEFAULT_DEBOUNCE_WINDOW_MS : Nat := 5 * 60 * 1000

/-- The `AlertManager` configuration fields the inspected dispatch path
reads. -/
structure ManagerConfig where
  fromEmail : Option String
  adminEmail : String
  retry : RetryConfig
  deriving DecidableEq, Repr

/-! ## FailureDetector (failure-detector.ts) -/

/-- `FailureDetector.failureHistory`: map of worker name to the list of
failure timestamps (milliseconds). -/
structure DetectorState where
  failureHistory : String → List Int

/-- `this.failureHistory.set(workerName, l)`. -/
def setHistory (st : DetectorState) (workerName : String) (l : List Int) :
    DetectorState :=
  ⟨fun k => if k = workerName then l else st.failureHistory k⟩

/-- The detector state with no recorded failures. -/
def emptyDetector : DetectorState := ⟨fun _ => []⟩

/-- `FailureDetector.trackJobFailure` (failure-detector.ts, lines 32-104):
appends `now` to the worker's history, evicts entries older than
`now - timeWindow`, and if the remaining count reaches the threshold,
emits a REPEATED_FAILURES alert (returned as the second component; the
code forwards it to `AlertManager.sendAlert`) and resets the worker's
history to empty. -/
def trackJobFailure (cfg : ThresholdsConfig) (st : DetectorState)
    (jobId workerName error : String) (now : Int) :
    DetectorState × Option Alert :=
  let failures := st.failureHistory workerName
  let failures := failures ++ [now]
  let timeWindowMs : Int := (cfg.timeWindowMinutes : Int) * 60 * 1000
  let cutoffTime : Int := now - timeWindowMs
  let recentFailures := failures.filter fun t => decide (cutoffTime ≤ t)
  let st1 := setHistory st workerName recentFailures
  if cfg.failuresInWindow ≤ recentFailures.length then
    let n := recentFailures.length
    let w := cfg.timeWindowMinutes
    let thr := cfg.failuresInWindow
    let alert : Alert :=
      { type := .REPEATED_FAILURES
        severity := .HIGH
        workerName := workerName
        timestamp := now
        context := some
          { failureCount := n
            timeWindowMinutes := w
            jobId := jobId
            error := error }
        message :=
          s!"{workerName} has {n} failures in {w} minutes (threshold: {thr})" }
    (setHistory st1 workerName [], some alert)
  else
    (st1, none)

/-- `FailureDetector.getFailureCount` (failure-detector.ts, lines 111-123):
counts the recorded timestamps at or after `now - timeWindow`; the stored
history is not modified (the function is a pure read of the state). -/
def getFailureCount (cfg : ThresholdsConfig) (st : DetectorState)
    (workerName : String) (now : Int) : Nat :=
  let failures := st.failureHistory workerName
  let timeWindowMs : Int := (cfg.timeWindowMinutes : Int) * 60 * 1000
  let cutoffTime : Int := now - timeWindowMs
  (failures.filter fun t => decide (cutoffTime ≤ t)).length

/-- The count the spec claims for `currentCount`, written from the spec's
words: the number of recorded timestamps within `[now - window, now]`,
inclusive of the lower bound. -/
def countInWindowSpec (cfg : ThresholdsConfig) (st : DetectorState)
    (workerName : String) (now : Int) : Nat :=
  let timeWindowMs : Int := (cfg.timeWindowMinutes : Int) * 60 * 1000
  ((st.failureHistory workerName).filter fun t =>
    decide (now - timeWindowMs ≤ t ∧ t ≤ now)).length

/-! ## AlertManager retry loop (alert-manager.ts, `sendWithRetry`) -/

/-- Trace of one `sendWithRetry` run: the returned `Result`, the number of
`mailer.send` calls made, and the sleep durations requested between
attempts, in order. -/
structure RetryTrace where
  result : Except AlertErr EmailSent
  sendCalls : Nat
  sleeps : List Nat
  deriving Repr

/-- The body of the `for (let attempt = 0; attempt < maxAttempts; attempt++)`
loop of `AlertManager.sendWithRetry` (alert-manager.ts, lines 403-521),
with `fuel` the number of loop iterations still allowed
(`maxAttempts - attempt`); `fuel = 0` is the fall-through after the loop
(lines 523-529). -/
def runRetryAux (transport : Nat → SendOutcome) (maxAttempts : Int)
    (delays : List Nat) : Nat → Nat → RetryTrace
  | _, 0 =>
    { result := .error
        { message := "Failed to send alert email", attempts := some maxAttempts }
      sendCalls := 0
      sleeps := [] }
  | attempt, fuel + 1 =>
    match transport attempt with
    | .err e =>
      if isTransientError e = false ∨ (attempt : Int) = maxAttempts - 1 then
        { result := .error
            { message := "Failed to send alert email"
              attempts := some ((attempt : Int) + 1) }
          sendCalls := 1
          sleeps := [] }
      else
        let rest := runRetryAux transport maxAttempts delays (attempt + 1) fuel
        { result := rest.result
          sendCalls := rest.sendCalls + 1
          sleeps := ((delays.get? attempt).getD 1000) :: rest.sleeps }
    | .ok id =>
      if id = "" then
        { result := .error
            { message := "Invalid response from mailer", attempts := none }
          sendCalls := 1
          sleeps := [] }
      else
        { result := .ok { id := id }, sendCalls := 1, sleeps := [] }
    | .exn _ =>
      if (attempt : Int) < maxAttempts - 1 then
        let rest := runRetryAux transport maxAttempts delays (attempt + 1) fuel
        { result := rest.result
          sendCalls := rest.sendCalls + 1
          sleeps := ((delays.get? attempt).getD 1000) :: rest.sleeps }
      else
        { result := .error
            { message := "Failed to send alert email after retries"
              attempts := some ((attempt : Int) + 1) }
          sendCalls := 1
          sleeps := [] }

/-- `AlertManager.sendWithRetry` (alert-manager.ts, lines 395-530): run the
retry loop from attempt 0; a negative or zero `maxAttempts` allows zero
iterations (the JS loop condition `attempt < maxAttempts` is false at
once). -/
def sendWithRetry (transport : Nat → SendOutcome) (retry : RetryConfig) :
    RetryTrace :=
  runRetryAux transport retry.maxAttempts retry.delays 0 retry.maxAttempts.toNat

/-! ## AlertManager dispatch (`sendAlerts`, `sendAlert`, `sendCustomEmail`) -/

/-- Trace of one `sendAlerts` run: the `Result`, the sizes of the alert
batches handed to the renderer, and the transport activity. -/
structure DispatchTrace where
  result : Except AlertErr EmailSent
  renderedAlerts : List Nat
  sendCalls : Nat
  sleeps : List Nat
  deriving Repr

/-- `AlertManager.sendAlerts` (alert-manager.ts, lines 241-343): resolve the
sender address (`options.from ?? config.fromEmail`; none is a
configuration failure returned before rendering or sending), render the
batch (a thrown render error is returned without sending), then delegate
to `sendWithRetry`. -/
def sendAlerts (cfg : ManagerConfig) (render : List Alert → Except String String)
    (transport : Nat → SendOutcome) (alerts : List Alert)
    (alertType : AlertType) (severity : AlertSeverity)
    (optFrom : Option String) : DispatchTrace :=
  let fromEmail : Option String :=
    match optFrom with
    | some f => some f
    | none => cfg.fromEmail
  match fromEmail with
  | none =>
    { result := .error { message := "No from email provided", attempts := none }
      renderedAlerts := []
      sendCalls := 0
      sleeps := [] }
  | some _ =>
    match render alerts with
    | .error _ =>
      { result := .error
          { message := "Failed to render alert email template", attempts := none }
        renderedAlerts := [alerts.length]
        sendCalls := 0
        sleeps := [] }
    | .ok _ =>
      let r := sendWithRetry transport cfg.retry
      { result := r.result
        renderedAlerts := [alerts.length]
        sendCalls := r.sendCalls
        sleeps := r.sleeps }

/-- `AlertManager.sendAlert` (alert-manager.ts, lines 231-236): the
single-alert convenience wrapper; it dispatches immediately by calling
`sendAlerts` with a one-element batch (no buffering, no debounce timer is
consulted anywhere on this path). -/
def sendAlert (cfg : ManagerConfig) (render : List Alert → Except String String)
    (transport : Nat → SendOutcome) (alert : Alert)
    (optFrom : Option String) : DispatchTrace :=
  sendAlerts cfg render transport [alert] alert.type alert.severity optFrom

/-- Trace of one `sendCustomEmail` run. -/
structure CustomTrace where
  result : Except AlertErr EmailSent
  sendCalls : Nat
  deriving Repr

/-- `AlertManager.sendCustomEmail` (alert-manager.ts, lines 348-390): resolve
recipient and sender, then call `mailer.send` exactly once; any error from
that single call is returned as "Failed to send custom email".  There is
no try/catch around the send, so a thrown exception propagates (modelled
as `none`). -/
def sendCustomEmail (cfg : ManagerConfig) (transport : Nat → SendOutcome)
    (pFrom pTo : Option String) (subject html : String)
    (text : Option String) : Option CustomTrace :=
  let _recipient : String :=
    match pTo with
    | some t => t
    | none => cfg.adminEmail
  let fromEmail : Option String :=
    match pFrom with
    | some f => some f
    | none => cfg.fromEmail
  match fromEmail with
  | none =>
    some { result := .error
             { message := "No from email provided", attempts := none }
           sendCalls := 0 }
  | some _ =>
    match transport 0 with
    | .ok id => some { result := .ok { id := id }, sendCalls := 1 }
    | .err _ =>
      some { result := .error
               { message := "Failed to send custom email", attempts := none }
             sendCalls := 1 }
    | .exn _ => none

/-! ## Concrete instances used to evaluate the model -/

/-- A configuration with a default sender address and the default retry
policy. -/
def exCfg : ManagerConfig :=
  { fromEmail := some "alerts@example.com"
    adminEmail := "admin@example.com"
    retry := DEFAULT_RETRY_CONFIG }

/-- A configuration with no sender address anywhere. -/
def exCfgNoFrom : ManagerConfig :=
  { fromEmail := none
    adminEmail := "admin@example.com"
    retry := DEFAULT_RETRY_CONFIG }

/-- A renderer that always succeeds. -/
def renderOk : List Alert → Except String String := fun _ => .ok "body"

/-- A transport that succeeds on every attempt. -/
def transportOk : Nat → SendOutcome := fun _ => .ok "mid-1"

/-- A transport that fails every attempt with a rate-limit (429) error. -/
def transport429 : Nat → SendOutcome :=
  fun _ => .err { message := "rate limited", statusCode := some 429 }

/-- A transport that fails every attempt with a service-unavailable (503)
error. -/
def transport503 : Nat → SendOutcome :=
  fun _ => .err { message := "service unavailable", statusCode := some 503 }

/-- A transport that fails transiently on attempts 0 and 1 and succeeds on
attempt 2. -/
def transportThird : Nat → SendOutcome :=
  fun i => if i < 2
    then .err { message := "service unavailable", statusCode := some 503 }
    else .ok "mid-3"

/-- A transport that fails transiently on attempt 0 and succeeds from
attempt 1 on. -/
def transportSecond : Nat → SendOutcome :=
  fun i => if i = 0
    then .err { message := "rate limited", statusCode := some 429 }
    else .ok "mid-2"

/-- A retry policy with fewer configured delays than attempts. -/
def shortDelays : RetryConfig := { maxAttempts := 3, delays := [5000] }

/-- A retry policy allowing zero attempts. -/
def zeroAttempts : RetryConfig :=
  { maxAttempts := 0, delays := [1000, 2000, 4000] }

/-- A first alert of category JOB_FAILURE arriving at t = 0 ms. -/
def exAlert1 : Alert :=
  { type := .JOB_FAILURE, severity := .CRITICAL, workerName := "worker-A"
    timestamp := 0, context := none, message := "first failure" }

/-- A second alert of the same category arriving 10 ms later. -/
def exAlert2 : Alert :=
  { type := .JOB_FAILURE, severity := .CRITICAL, workerName := "worker-A"
    timestamp := 10, context := none, message := "second failure" }

/-- A detector state whose only record for worker-A is a timestamp 1 ms in
the future of the read instant used below. -/
def futureState : DetectorState :=
  ⟨fun w => if w = "worker-A" then [1] else []⟩

/-- A detector state for worker-A with one timestamp exactly at the window
boundary and one just outside it, relative to `now = 0` and the default
10-minute window. -/
def boundaryState : DetectorState :=
  ⟨fun w => if w = "worker-A" then [-600000, -600001] else []⟩

/-- A threshold configuration that escalates on the first failure. -/
def oneShotThresholds : ThresholdsConfig :=
  { failuresInWindow := 1, timeWindowMinutes := 10 }

/-! ## Theorems -/

/-- Reading back the history just written for a worker. -/
theorem setHistory_self (st : DetectorState) (workerName : String)
    (l : List Int) :
    (setHistory st workerName l).failureHistory workerName = l := by
  simp [setHistory]

/-- Claim C3: the error classifier is a total pure function: every transport
error is classified transient exactly when its status code is 429 or 503 or
its message indicates timeout, network failure, or connection refusal (the
spec's rule, `transientSpec`), and every error falls in exactly one of the
two buckets. -/
theorem isTransientError_total_matches_spec (e : TransportError) :
    isTransientError e = transientSpec e ∧
      (isTransientError e = true ∨ isTransientError e = false) := by
  constructor
  · by_cases h : e.statusCode = some 429 ∨ e.statusCode = some 503
    · rcases h with h | h <;> simp [isTransientError, transientSpec, h]
    · push_neg at h
      simp [isTransientError, transientSpec, h.1, h.2]
  · cases isTransientError e
    · exact Or.inr rfl
    · exact Or.inl rfl

/-- Claim C7 (counterexample): `getFailureCount` applies no upper bound, so a
recorded timestamp later than `now` is counted even though it is not within
`[now - window, now]`: with one recorded timestamp at 1 ms and `now = 0`,
the code returns 1 while the claimed count is 0. -/
theorem getFailureCount_future_counterexample :
    getFailureCount DEFAULT_THRESHOLDS futureState "worker-A" 0 = 1 ∧
      countInWindowSpec DEFAULT_THRESHOLDS futureState "worker-A" 0 = 0 ∧
      (1 : Nat) ≠ 0 := by
  refine ⟨rfl, rfl, by decide⟩

/-- Claim C7 (amended): `getFailureCount` returns the number of recorded
timestamps `t` with `now - timeWindow ≤ t` (lower bound inclusive, no upper
bound applied), without mutating the stored history; whenever every recorded
timestamp is at most `now` — as holds for histories written by the detector
itself — this equals the claimed count of timestamps within
`[now - window, now]`. -/
theorem getFailureCount_eq_specCount_of_past (cfg : ThresholdsConfig)
    (st : DetectorState) (workerName : String) (now : Int)
    (h : ∀ t ∈ st.failureHistory workerName, t ≤ now) :
    getFailureCount cfg st workerName now =
      countInWindowSpec cfg st workerName now := by
  unfold getFailureCount countInWindowSpec
  dsimp only
  congr 1
  apply List.filter_congr
  intro t ht
  have := h t ht
  simp only [decide_eq_decide]
  constructor
  · intro h1
    exact ⟨h1, this⟩
  · intro h1
    exact h1.1

/-- Witness for the amended C7 theorem: a history with one timestamp exactly
at the window boundary (counted, inclusive lower bound) and one just
outside (evicted). -/
theorem getFailureCount_eq_specCount_of_past_witness :
    (∀ t ∈ boundaryState.failureHistory "worker-A", t ≤ (0 : Int)) ∧
      getFailureCount DEFAULT_THRESHOLDS boundaryState "worker-A" 0 =
        countInWindowSpec DEFAULT_THRESHOLDS boundaryState "worker-A" 0 :=
  ⟨by decide,
    getFailureCount_eq_specCount_of_past DEFAULT_THRESHOLDS boundaryState
      "worker-A" 0 (by decide)⟩

/-- Claim C8: a `sendAlerts` (or `sendAlert`) call with no configured sender
address and none supplied in options returns the configuration failure
immediately: no rendering happens, no transport send call happens, no retry
sleep happens. -/
theorem sendAlerts_missing_sender (cfg : ManagerConfig)
    (render : List Alert → Except String String)
    (transport : Nat → SendOutcome) (alerts : List Alert)
    (alertType : AlertType) (severity : AlertSeverity)
    (h : cfg.fromEmail = none) :
    sendAlerts cfg render transport alerts alertType severity none =
      { result := .error { message := "No from email provided", attempts := none }
        renderedAlerts := []
        sendCalls := 0
        sleeps := [] } ∧
    ∀ a : Alert, sendAlert cfg render transport a none =
      { result := .error { message := "No from email provided", attempts := none }
        renderedAlerts := []
        sendCalls := 0
        sleeps := [] } := by
  constructor
  · simp [sendAlerts, h]
  · intro a
    simp [sendAlert, sendAlerts, h]

/-- Witness for C8 at a concrete configuration with no sender address. -/
theorem sendAlerts_missing_sender_witness :
    exCfgNoFrom.fromEmail = none ∧
      sendAlerts exCfgNoFrom renderOk transportOk [exAlert1] .JOB_FAILURE
          .CRITICAL none =
        { result := .error
            { message := "No from email provided", attempts := none }
          renderedAlerts := []
          sendCalls := 0
          sleeps := [] } :=
  ⟨rfl,
    (sendAlerts_missing_sender exCfgNoFrom renderOk transportOk [exAlert1]
      .JOB_FAILURE .CRITICAL rfl).1⟩

/-- Claim C10: with `maxAttempts ≤ 0` the retry loop body never runs:
`sendWithRetry` performs zero transport send calls, sleeps never, and
returns the post-loop fallback error "Failed to send alert email" carrying
the configured attempt count. -/
theorem sendWithRetry_nonpositive_attempts (transport : Nat → SendOutcome)
    (retry : RetryConfig) (h : retry.maxAttempts ≤ 0) :
    sendWithRetry transport retry =
      { result := .error
          { message := "Failed to send alert email"
            attempts := some retry.maxAttempts }
        sendCalls := 0
        sleeps := [] } := by
  unfold sendWithRetry
  have h0 : retry.maxAttempts.toNat = 0 := by omega
  rw [h0]
  rfl

/-- Witness for C10 at `maxAttempts = 0`. -/
theorem sendWithRetry_nonpositive_attempts_witness :
    zeroAttempts.maxAttempts ≤ 0 ∧
      sendWithRetry transport503 zeroAttempts =
        { result := .error
            { message := "Failed to send alert email"
              attempts := some zeroAttempts.maxAttempts }
          sendCalls := 0
          sleeps := [] } :=
  ⟨by decide, sendWithRetry_nonpositive_attempts transport503 zeroAttempts (by decide)⟩

/-- Claim C1 (code evaluation at the failing input): the dispatch path does
not buffer.  Two alerts of the same category arriving 10 ms apart each
cause an immediate outbound send of a single-alert batch with no delay —
two sends of one alert each, not one debounced send containing both. -/
theorem sendAlert_no_debounce_two_sends :
    (sendAlert exCfg renderOk transportOk exAlert1 none).sendCalls = 1 ∧
    (sendAlert exCfg renderOk transportOk exAlert1 none).renderedAlerts = [1] ∧
    (sendAlert exCfg renderOk transportOk exAlert1 none).sleeps = [] ∧
    (sendAlert exCfg renderOk transportOk exAlert2 none).sendCalls = 1 ∧
    (sendAlert exCfg renderOk transportOk exAlert2 none).renderedAlerts = [1] ∧
    (sendAlert exCfg renderOk transportOk exAlert2 none).sleeps = [] :=
  ⟨rfl, rfl, rfl, rfl, rfl, rfl⟩

/-- Splitting off the first entry of a shifted backoff schedule. -/
theorem range_map_shift (delays : List Nat) (a n : Nat) :
    (List.range (n + 1)).map (fun j => (delays.get? (a + j)).getD 1000) =
      ((delays.get? a).getD 1000) ::
        (List.range n).map fun j => (delays.get? (a + 1 + j)).getD 1000 := by
  rw [List.range_succ_eq_map, List.map_cons, List.map_map]
  congr 1
  apply List.map_congr_left
  intro j _
  simp only [Function.comp_apply]
  congr 2
  omega

/-- One-step unfolding of the retry loop at a transient error with attempts
remaining: sleep `delays[attempt] ?? 1000` and continue with the next
attempt. -/
theorem runRetryAux_step_transient (transport : Nat → SendOutcome)
    (maxA : Int) (delays : List Nat) (attempt fuel : Nat) (e : TransportError)
    (he : transport attempt = .err e) (het : isTransientError e = true)
    (hne : ¬((attempt : Int) = maxA - 1)) :
    runRetryAux transport maxA delays attempt (fuel + 1) =
      { result := (runRetryAux transport maxA delays (attempt + 1) fuel).result
        sendCalls :=
          (runRetryAux transport maxA delays (attempt + 1) fuel).sendCalls + 1
        sleeps := ((delays.get? attempt).getD 1000) ::
          (runRetryAux transport maxA delays (attempt + 1) fuel).sleeps } := by
  conv_lhs => rw [runRetryAux]
  simp only [he]
  rw [if_neg (by simp [het, hne])]

/-- Behaviour of the retry loop when every allowed attempt fails with a
transient error: it makes one send call per allowed attempt, sleeps
`delays[attempt] ?? 1000` between consecutive attempts, and ends with the
"Failed to send alert email" error carrying `maxAttempts` as the attempt
count. -/
theorem runRetryAux_all_transient (transport : Nat → SendOutcome) (maxA : Int)
    (delays : List Nat) :
    ∀ fuel attempt : Nat, (attempt : Int) + fuel = maxA → 0 < fuel →
      (∀ i : Nat, attempt ≤ i → (i : Int) < maxA →
        ∃ e, transport i = .err e ∧ isTransientError e = true) →
      runRetryAux transport maxA delays attempt fuel =
        { result := .error
            { message := "Failed to send alert email", attempts := some maxA }
          sendCalls := fuel
          sleeps := (List.range (fuel - 1)).map
            fun j => (delays.get? (attempt + j)).getD 1000 } := by
  intro fuel
  induction fuel with
  | zero =>
    intro attempt _ h2 _
    exact absurd h2 (by omega)
  | succ f ih =>
    intro attempt hsum hpos htrans
    obtain ⟨e, he, het⟩ := htrans attempt le_rfl (by omega)
    cases f with
    | zero =>
      have hm : (attempt : Int) + 1 = maxA := by omega
      have hlast : (attempt : Int) = maxA - 1 := by omega
      simp [runRetryAux, he, het, hlast, hm]
    | succ f2 =>
      have hne : ¬((attempt : Int) = maxA - 1) := by omega
      have hrec := ih (attempt + 1) (by push_cast at hsum ⊢; omega) (by omega)
        fun i hi hilt => htrans i (by omega) hilt
      rw [runRetryAux_step_transient transport maxA delays attempt (f2 + 1) e
        he het hne, hrec]
      simp only [Nat.add_sub_cancel]
      rw [range_map_shift delays attempt f2]

/-- Behaviour of the retry loop when every attempt before the final allowed
one fails transiently and the final allowed attempt succeeds with a
non-empty message id: the result is a success carrying that id. -/
theorem runRetryAux_success_final (transport : Nat → SendOutcome) (maxA : Int)
    (delays : List Nat) (id : String) (hid : id ≠ "") :
    ∀ fuel attempt : Nat, (attempt : Int) + fuel = maxA → 0 < fuel →
      (∀ i : Nat, attempt ≤ i → (i : Int) < maxA - 1 →
        ∃ e, transport i = .err e ∧ isTransientError e = true) →
      transport (maxA - 1).toNat = .ok id →
      (runRetryAux transport maxA delays attempt fuel).result = .ok { id := id } := by
  intro fuel
  induction fuel with
  | zero =>
    intro attempt _ h2 _ _
    exact absurd h2 (by omega)
  | succ f ih =>
    intro attempt hsum hpos htrans hok
    by_cases hlast : (attempt : Int) = maxA - 1
    · have hidx : (maxA - 1).toNat = attempt := by omega
      rw [hidx] at hok
      simp [runRetryAux, hok, hid]
    · have hlt : (attempt : Int) < maxA - 1 := by omega
      obtain ⟨e, he, het⟩ := htrans attempt le_rfl hlt
      cases f with
      | zero => omega
      | succ f2 =>
        rw [runRetryAux_step_transient transport maxA delays attempt (f2 + 1) e
          he het hlast]
        exact ih (attempt + 1) (by push_cast at hsum ⊢; omega) (by omega)
          (fun i hi hl => htrans i (by omega) hl) hok

/-- Claim C2: under a policy with `maxAttempts ≥ 1`, when the transport
fails with a transient error on every allowed attempt, `sendAlerts` (via
`sendWithRetry`) returns a failure whose reported attempt count equals
`maxAttempts`; and when the transport succeeds on the final allowed attempt
(index `maxAttempts - 1`) after transient failures, `sendAlerts` returns a
success carrying the transport message id. -/
theorem sendAlerts_retry_contract (cfg : ManagerConfig)
    (render : List Alert → Except String String)
    (t1 t2 : Nat → SendOutcome) (alerts : List Alert)
    (alertType : AlertType) (severity : AlertSeverity)
    (f html id : String)
    (hmax : 1 ≤ cfg.retry.maxAttempts)
    (hrender : render alerts = .ok html) :
    ((∀ i : Nat, (i : Int) < cfg.retry.maxAttempts →
        ∃ e, t1 i = .err e ∧ isTransientError e = true) →
      (sendAlerts cfg render t1 alerts alertType severity (some f)).result =
        .error { message := "Failed to send alert email"
                 attempts := some cfg.retry.maxAttempts }) ∧
    (id ≠ "" →
      (∀ i : Nat, (i : Int) < cfg.retry.maxAttempts - 1 →
        ∃ e, t2 i = .err e ∧ isTransientError e = true) →
      t2 (cfg.retry.maxAttempts - 1).toNat = .ok id →
      (sendAlerts cfg render t2 alerts alertType severity (some f)).result =
        .ok { id := id }) := by
  have hfuel : ((0 : Nat) : Int) + (cfg.retry.maxAttempts.toNat : Int) =
      cfg.retry.maxAttempts := by omega
  have hpos : 0 < cfg.retry.maxAttempts.toNat := by omega
  constructor
  · intro ht
    simp only [sendAlerts, hrender]
    show (sendWithRetry t1 cfg.retry).result = _
    unfold sendWithRetry
    rw [runRetryAux_all_transient t1 cfg.retry.maxAttempts cfg.retry.delays
      cfg.retry.maxAttempts.toNat 0 hfuel hpos fun i _ hilt => ht i hilt]
  · intro hid ht hok
    simp only [sendAlerts, hrender]
    show (sendWithRetry t2 cfg.retry).result = _
    unfold sendWithRetry
    exact runRetryAux_success_final t2 cfg.retry.maxAttempts cfg.retry.delays
      id hid cfg.retry.maxAttempts.toNat 0 hfuel hpos
      (fun i _ hl => ht i hl) hok

/-- Witness for C2 with the default policy (3 attempts): a transport that is
always rate-limited exhausts all retries reporting 3 attempts; a transport
that recovers on attempt index 2 yields a success with its message id. -/
theorem sendAlerts_retry_contract_witness :
    1 ≤ exCfg.retry.maxAttempts ∧
    (sendAlerts exCfg renderOk transport429 [exAlert1] .JOB_FAILURE .CRITICAL
        (some "ops@example.com")).result =
      .error { message := "Failed to send alert email"
               attempts := some exCfg.retry.maxAttempts } ∧
    (sendAlerts exCfg renderOk transportThird [exAlert1] .JOB_FAILURE .CRITICAL
        (some "ops@example.com")).result = .ok { id := "mid-3" } := by
  obtain ⟨h1, h2⟩ := sendAlerts_retry_contract exCfg renderOk transport429
    transportThird [exAlert1] .JOB_FAILURE .CRITICAL "ops@example.com" "body"
    "mid-3" (by decide) rfl
  refine ⟨by decide, h1 fun i _ => ⟨_, rfl, by decide⟩, h2 (by decide) ?_ ?_⟩
  · intro i hi
    have hm : exCfg.retry.maxAttempts = 3 := rfl
    rw [hm] at hi
    have hi2 : i < 2 := by omega
    exact ⟨{ message := "service unavailable", statusCode := some 503 },
      by simp [transportThird, hi2], by decide⟩
  · rfl

/-- Claim C4 (counterexample): with `delays = [5000]` and three attempts of
transient failure, the sleep before the retry at attempt 1 (an index past
the end of the delays list) is the fixed fallback 1000 ms, not the last
configured delay 5000 ms. -/
theorem retryDelay_fallback_counterexample :
    (sendWithRetry transport503 shortDelays).sleeps = [5000, 1000] ∧
      shortDelays.delays.getLast? = some 5000 ∧
      (sendWithRetry transport503 shortDelays).sleeps ≠ [5000, 5000] := by
  refine ⟨rfl, rfl, ?_⟩
  have h : (sendWithRetry transport503 shortDelays).sleeps = [5000, 1000] := rfl
  rw [h]
  decide

/-- Claim C4 (amended): on each transient failure with attempts remaining the
dispatcher sleeps `delays[attempt]` when `attempt` is in range, and the
fixed default of 1000 ms — not the last configured delay — when `attempt`
is at or past the end of the delays list. -/
theorem sendWithRetry_sleep_schedule (transport : Nat → SendOutcome)
    (retry : RetryConfig) (hmax : 1 ≤ retry.maxAttempts)
    (htrans : ∀ i : Nat, (i : Int) < retry.maxAttempts →
      ∃ e, transport i = .err e ∧ isTransientError e = true) :
    (sendWithRetry transport retry).sleeps =
      (List.range (retry.maxAttempts.toNat - 1)).map
        fun j => (retry.delays.get? j).getD 1000 := by
  unfold sendWithRetry
  rw [runRetryAux_all_transient transport retry.maxAttempts retry.delays
    retry.maxAttempts.toNat 0 (by omega) (by omega)
    fun i _ hilt => htrans i hilt]
  simp

/-- Witness for the amended C4 theorem: `delays = [5000]`, three transient
failures: the recorded sleeps are `delays[0] = 5000` and then the 1000 ms
default for the out-of-range attempt 1. -/
theorem sendWithRetry_sleep_schedule_witness :
    1 ≤ shortDelays.maxAttempts ∧
      (sendWithRetry transport503 shortDelays).sleeps =
        (List.range (shortDelays.maxAttempts.toNat - 1)).map
          fun j => (shortDelays.delays.get? j).getD 1000 :=
  ⟨by decide,
    sendWithRetry_sleep_schedule transport503 shortDelays (by decide)
      fun i _ => ⟨_, rfl, by decide⟩⟩

/-- Claim C5 (counterexample): `sendCustomEmail` does not share the retry
semantics of `sendAlerts`.  With the default policy and a transport whose
attempt 0 fails with a transient (429) error and whose attempt 1 succeeds,
the `sendAlerts` retry path retries and succeeds after two send calls,
while `sendCustomEmail` makes exactly one send call and fails
immediately. -/
theorem sendCustomEmail_no_retry_counterexample :
    isTransientError { message := "rate limited", statusCode := some 429 } =
      true ∧
    (sendWithRetry transportSecond exCfg.retry).result = .ok { id := "mid-2" } ∧
    (sendWithRetry transportSecond exCfg.retry).sendCalls = 2 ∧
    sendCustomEmail exCfg transportSecond (some "ops@example.com") none
        "subject" "<p>hi</p>" none =
      some { result := .error
               { message := "Failed to send custom email", attempts := none }
             sendCalls := 1 } := by
  refine ⟨by decide, rfl, by decide, rfl⟩

/-- Claim C5 (amended): `sendCustomEmail` performs exactly one transport send
with no retry, no backoff sleep and no transient/terminal classification:
with a sender address available, any transport error — transient or not —
yields the immediate "Failed to send custom email" failure after one send
call, and a resolved transport success yields a success after one send
call. -/
theorem sendCustomEmail_single_attempt (cfg : ManagerConfig)
    (transport : Nat → SendOutcome) (pTo : Option String)
    (subject html : String) (text : Option String) (f : String) :
    (∀ e, transport 0 = .err e →
      sendCustomEmail cfg transport (some f) pTo subject html text =
        some { result := .error
                 { message := "Failed to send custom email", attempts := none }
               sendCalls := 1 }) ∧
    (∀ id, transport 0 = .ok id →
      sendCustomEmail cfg transport (some f) pTo subject html text =
        some { result := .ok { id := id }, sendCalls := 1 }) := by
  constructor
  · intro e he
    simp [sendCustomEmail, he]
  · intro id hok
    simp [sendCustomEmail, hok]

/-- Witness for the amended C5 theorem at a concrete transient error. -/
theorem sendCustomEmail_single_attempt_witness :
    transportSecond 0 =
      .err { message := "rate limited", statusCode := some 429 } ∧
    sendCustomEmail exCfg transportSecond (some "ops@example.com") none
        "subject" "<p>hi</p>" none =
      some { result := .error
               { message := "Failed to send custom email", attempts := none }
             sendCalls := 1 } :=
  ⟨rfl,
    (sendCustomEmail_single_attempt exCfg transportSecond none "subject"
      "<p>hi</p>" none "ops@example.com").1 _ rfl⟩

/-- Claim C6: when a reported failure brings the trailing-window count for a
worker to the `failuresInWindow` threshold, `trackJobFailure` emits exactly
one escalation alert — of type REPEATED_FAILURES, severity HIGH, carrying
the failure count, the window size and the triggering error — forwards it
to the dispatcher, and resets that worker's window to empty, so that the
failure count read immediately afterwards is 0. -/
theorem trackJobFailure_escalates (cfg : ThresholdsConfig)
    (st : DetectorState) (jobId workerName error : String) (now : Int)
    (h : cfg.failuresInWindow ≤
      ((st.failureHistory workerName ++ [now]).filter fun t =>
        decide (now - (cfg.timeWindowMinutes : Int) * 60 * 1000 ≤ t)).length) :
    (∃ a : Alert,
      (trackJobFailure cfg st jobId workerName error now).2 = some a ∧
      a.type = .REPEATED_FAILURES ∧
      a.severity = .HIGH ∧
      a.context = some
        { failureCount :=
            ((st.failureHistory workerName ++ [now]).filter fun t =>
              decide (now - (cfg.timeWindowMinutes : Int) * 60 * 1000 ≤ t)).length
          timeWindowMinutes := cfg.timeWindowMinutes
          jobId := jobId
          error := error }) ∧
    (trackJobFailure cfg st jobId workerName error now).1.failureHistory
        workerName = [] ∧
    getFailureCount cfg (trackJobFailure cfg st jobId workerName error now).1
        workerName now = 0 := by
  simp only [trackJobFailure]
  split
  · refine ⟨⟨_, rfl, rfl, rfl, rfl⟩, ?_, ?_⟩
    · simp [setHistory]
    · simp [getFailureCount, setHistory]
  · next hc => exact absurd h hc

/-- Witness for C6: with a threshold of 1 failure in 10 minutes, a single
report escalates and empties the window. -/
theorem trackJobFailure_escalates_witness :
    (oneShotThresholds.failuresInWindow ≤
      ((emptyDetector.failureHistory "worker-A" ++ [(0 : Int)]).filter fun t =>
        decide ((0 : Int) - (oneShotThresholds.timeWindowMinutes : Int) * 60 * 1000 ≤ t)).length) ∧
    ((∃ a : Alert,
      (trackJobFailure oneShotThresholds emptyDetector "job-1" "worker-A"
          "boom" 0).2 = some a ∧
      a.type = .REPEATED_FAILURES ∧
      a.severity = .HIGH ∧
      a.context = some
        { failureCount := 1
          timeWindowMinutes := 10
          jobId := "job-1"
          error := "boom" }) ∧
    (trackJobFailure oneShotThresholds emptyDetector "job-1" "worker-A"
        "boom" 0).1.failureHistory "worker-A" = [] ∧
    getFailureCount oneShotThresholds
        (trackJobFailure oneShotThresholds emptyDetector "job-1" "worker-A"
          "boom" 0).1 "worker-A" 0 = 0) :=
  ⟨by decide,
    trackJobFailure_escalates oneShotThresholds emptyDetector "job-1"
      "worker-A" "boom" 0 (by decide)⟩

/-- Claim C9: after any completed `trackJobFailure` call, the number of
stored timestamps for that worker lying within the trailing window is
strictly below the `failuresInWindow` threshold (the trimmed list was below
the threshold, or the history was reset to empty after escalating), for any
positive threshold. -/
theorem trackJobFailure_below_threshold_invariant (cfg : ThresholdsConfig)
    (st : DetectorState) (jobId workerName error : String) (now : Int)
    (h : 1 ≤ cfg.failuresInWindow) :
    (((trackJobFailure cfg st jobId workerName error now).1.failureHistory
        workerName).filter fun t =>
      decide (now - (cfg.timeWindowMinutes : Int) * 60 * 1000 ≤ t)).length <
      cfg.failuresInWindow := by
  simp only [trackJobFailure]
  split
  · rw [setHistory_self]
    simpa using h
  · next hc =>
    rw [setHistory_self]
    rw [List.filter_eq_self.mpr fun a ha => (List.mem_filter.mp ha).2]
    omega

/-- Witness for C9: one failure reported into an empty history under the
default thresholds leaves 1 < 5 in-window timestamps. -/
theorem trackJobFailure_below_threshold_invariant_witness :
    1 ≤ DEFAULT_THRESHOLDS.failuresInWindow ∧
    (((trackJobFailure DEFAULT_THRESHOLDS emptyDetector "job-1" "worker-A"
        "boom" 0).1.failureHistory "worker-A").filter fun t =>
      decide ((0 : Int) - (DEFAULT_THRESHOLDS.timeWindowMinutes : Int) * 60 * 1000 ≤ t)).length <
      DEFAULT_THRESHOLDS.failuresInWindow :=
  ⟨by decide,
    trackJobFailure_below_threshold_invariant DEFAULT_THRESHOLDS emptyDetector
      "job-1" "worker-A" "boom" 0 (by decide)⟩

end LecAlert
